import Mathlib

/-!
Verification development for `analyze_json.py` of
python-netflow-v9-softflowd: a script that pairs NetFlow v9 flow
records two-at-a-time per export batch, derives a `Connection`
(dominant direction, wraparound-corrected duration), and prints
summaries of transfers larger than 1 MiB.

Modelling conventions (a shallow embedding of the Python script):
* A JSON flow record is a dictionary; we embed it as an association
  list `FlowDict` from key strings to `Val` (JSON integers or
  strings).  Key lookup `flow[k]` is `dget` (a `KeyError` becomes
  `none`), key membership `k in flow` is `dhas`.
* Fallible Python expressions (a `KeyError`, or a `TypeError` from
  comparing/subtracting an `int` and a `str`) are modelled with
  `Option`: `none` means the script raises at that point.
* `ipaddress.ip_address` is abstracted as the identity on the stored
  value: its parsing of the address string is outside the claims.
* Python floats: the script divides an `int` by powers of two
  (`1024.`); for sizes below 2^53 the conversion and division are
  exact in binary floating point, so we use exact rationals `ℚ`.
  `"%.2f"` rounding is modelled as round-half-up on the exact value
  (it agrees with printf except on exact decimal ties).
-/

/-- A JSON scalar stored in a flow record: an integer or a string. -/
inductive Val where
  | int : Int → Val
  | str : String → Val
deriving DecidableEq, Repr

/-- A flow record: a dictionary from field names to values, embedded as
an association list (keys unique in actual JSON input). -/
abbrev FlowDict := List (String × Val)

/-- Dictionary lookup `flow[k]`: `none` models a Python `KeyError`. -/
def dget (d : FlowDict) (k : String) : Option Val :=
  (d.find? (fun p => p.1 == k)).map Prod.snd

/-- Key membership test `k in flow`. -/
def dhas (d : FlowDict) (k : String) : Bool :=
  d.any (fun p => p.1 == k)

/-- The script's `Pair = namedtuple('Pair', 'src dest')`. -/
structure Pair (α : Type) where
  src : α
  dest : α
deriving DecidableEq, Repr

/-- The local `use_ipv4` flag of `getIPs`: starts `False`, set by
`if 'IP_PROTOCOL_VERSION' in flow and flow['IP_PROTOCOL_VERSION'] == 4`
and by the `elif 'IPV4_SRC_ADDR' in flow or 'IPV4_DST_ADDR' in flow`
branch.  A stored string compares `== 4` as `False` in Python. -/
def use_ipv4 (flow : FlowDict) : Bool :=
  if dhas flow "IP_PROTOCOL_VERSION"
      && decide (dget flow "IP_PROTOCOL_VERSION" = some (Val.int 4)) then
    true
  else if dhas flow "IPV4_SRC_ADDR" || dhas flow "IPV4_DST_ADDR" then
    true
  else
    false

/-- The script's `getIPs`: pick the address family via `use_ipv4`, then
read both address fields of that family (`none` models the `KeyError`
when a required field is missing; `ipaddress.ip_address` is abstracted
as the identity on the stored value). -/
def getIPs (flow : FlowDict) : Option (Pair Val) :=
  if use_ipv4 flow then
    match dget flow "IPV4_SRC_ADDR", dget flow "IPV4_DST_ADDR" with
    | some s, some d => some ⟨s, d⟩
    | _, _ => none
  else
    match dget flow "IPV6_SRC_ADDR", dget flow "IPV6_DST_ADDR" with
    | some s, some d => some ⟨s, d⟩
    | _, _ => none

/-- Python `a >= b` on two stored values: `int >= int` and
`str >= str` (lexicographic) succeed; mixing the two raises
`TypeError`, modelled as `none`. -/
def valGe : Val → Val → Option Bool
  | Val.int a, Val.int b => some (decide (b ≤ a))
  | Val.str a, Val.str b => some (decide (b ≤ a))
  | _, _ => none

/-- Coerce a stored value to an integer for arithmetic; a string
raises `TypeError` (modelled as `none`). -/
def Val.asInt : Val → Option Int
  | Val.int i => some i
  | Val.str _ => none

/-- The `Connection` object: fields assigned by `Connection.__init__`.
`duration` is the already-computed integer difference. -/
structure Connection where
  src : Val
  dest : Val
  src_port : Val
  dest_port : Val
  size : Val
  duration : Int
deriving DecidableEq, Repr

/-- Direction selection of `Connection.__init__` (lines 48-53): `src`
is `flow1` iff `flow1['IN_BYTES'] >= flow2['IN_BYTES']`.  The `dest`
local of the source is never read afterwards. -/
def srcFlow (flow1 flow2 : FlowDict) : Option FlowDict := do
  let b1 ← dget flow1 "IN_BYTES"
  let b2 ← dget flow2 "IN_BYTES"
  let g ← valGe b1 b2
  pure (if g then flow1 else flow2)

/-- Body of `Connection.__init__` after direction selection (lines
55-66): every attribute is read from the `src`-labelled flow.  The
duration is `LAST_SWITCHED - FIRST_SWITCHED`, replaced by
`(2**32 - FIRST_SWITCHED) + LAST_SWITCHED` when negative. -/
def connParts (src : FlowDict) : Option Connection := do
  let ips ← getIPs src
  let sp ← dget src "L4_SRC_PORT"
  let dp ← dget src "L4_DST_PORT"
  let sz ← dget src "IN_BYTES"
  let lastv ← dget src "LAST_SWITCHED"
  let firstv ← dget src "FIRST_SWITCHED"
  let li ← lastv.asInt
  let fi ← firstv.asInt
  let d0 := li - fi
  pure { src := ips.src, dest := ips.dest, src_port := sp, dest_port := dp,
         size := sz,
         duration := if d0 < 0 then (2 ^ 32 - fi) + li else d0 }

/-- `Connection.__init__`: direction selection followed by attribute
derivation from the dominant flow; `none` models a raised exception. -/
def Connection.init (flow1 flow2 : FlowDict) : Option Connection := do
  let src ← srcFlow flow1 flow2
  connParts src

/-- Zero-padded `"%02d"` of a (non-negative) integer. -/
def pad2 (n : Int) : String :=
  if n < 10 then "0" ++ toString n else toString n

/-- Round-half-up of a rational to the nearest integer,
`⌊x + 1/2⌋ = ⌊(2 num + den) / (2 den)⌋`; models the rounding of
`"%.2f"` (printf rounds the binary double to nearest, which agrees
off exact ties). -/
def ratRound (x : ℚ) : Int :=
  Int.fdiv (2 * x.num + (x.den : Int)) (2 * (x.den : Int))

/-- Format a non-negative rational with two decimals, as `"%.2f"`. -/
def fmt2 (x : ℚ) : String :=
  let n : Int := ratRound (x * 100)
  toString (Int.fdiv n 100) ++ "." ++ pad2 (Int.emod n 100)

/-- The `human_size` property: thresholds and quotients use float
division by powers of 1024 (exact for the integer sizes at issue, so
taken over `ℚ`); a non-integer `size` raises `TypeError` on the first
comparison (`none`). -/
def Connection.human_size (c : Connection) : Option String :=
  match c.size with
  | Val.str _ => none
  | Val.int n =>
    if n < 1024 then some (toString n ++ "B")
    else if (n : ℚ) / 1024 < 1024 then some (fmt2 ((n : ℚ) / 1024) ++ "K")
    else if (n : ℚ) / 1024 ^ 2 < 1024 then some (fmt2 ((n : ℚ) / 1024 ^ 2) ++ "M")
    else some (fmt2 ((n : ℚ) / 1024 ^ 3) ++ "G")

/-- The `human_duration` property.  `duration // 1000` is Python floor
division (`Int.fdiv`).  In the hours and minutes branches the `"%d"`
directives truncate their float arguments toward zero; those branches
only see positive values there, where truncation is `Int.fdiv`.
Python `%` with a positive modulus is `Int.emod`. -/
def Connection.human_duration (c : Connection) : String :=
  let d := Int.fdiv c.duration 1000
  if d < 60 then
    toString d ++ " sec"
  else if (d : ℚ) / 60 > 60 then
    toString (Int.fdiv d (60 ^ 2)) ++ ":" ++ pad2 (Int.fdiv (Int.emod d (60 ^ 2)) 60)
      ++ "." ++ pad2 (Int.emod d 60) ++ " hours"
  else
    pad2 (Int.fdiv d 60) ++ ":" ++ pad2 (Int.emod d 60) ++ " min"

/-- The `service` property.  `socket.getservbyport` is abstracted as a
`lookup` parameter whose `none` is the `OSError` the code catches;
calling it on a non-integer port raises an uncaught `TypeError`
(modelled as the outer `none`).  When both lookups fail the initial
`service = "unknown"` survives. -/
def Connection.service (c : Connection) (lookup : Int → Option String) :
    Option String :=
  match c.src_port with
  | Val.str _ => none
  | Val.int p =>
    match lookup p with
    | some s => some s
    | none =>
      match c.dest_port with
      | Val.str _ => none
      | Val.int q => some ((lookup q).getD "unknown")

/-- Python `v > n` for a stored value against an integer constant
(the report threshold `con.size > 1024**2`); a string raises
`TypeError`. -/
def valGtInt (v : Val) (n : Int) : Option Bool :=
  match v with
  | Val.int i => some (decide (n < i))
  | Val.str _ => none

/-- Pairing view of the per-batch loop (lines 135-149): `pending`
starts `None`; `if not pending` is Python truthiness, satisfied by
`None` and by an empty dict, in which case the incoming flow is
stored; otherwise the pair `(pending, flow)` is emitted and `pending`
reset to `None`. -/
def pairFlows : List FlowDict → Option FlowDict → List (FlowDict × FlowDict)
  | [], _ => []
  | f :: rest, none => pairFlows rest (some f)
  | f :: rest, some p =>
    if p.isEmpty then pairFlows rest (some f)
    else (p, f) :: pairFlows rest none

/-- Consecutive two-at-a-time chunking of a list, `(1st,2nd),
(3rd,4th), ...`, dropping a trailing odd element. -/
def chunk2 {α : Type} : List α → List (α × α)
  | a :: b :: rest => (a, b) :: chunk2 rest
  | _ => []

/-- The outer loop over export timestamps (line 131): each batch is
processed with `pending` re-initialised to `None` (line 135).  The
input is the timestamp-sorted list of batches; only the pairing view
is kept here. -/
def processExports : List (List FlowDict) → List (List (FlowDict × FlowDict))
  | [] => []
  | batch :: rest => pairFlows batch none :: processExports rest

/-- Reporting view of the per-batch loop: on each completed pair a
`Connection` is constructed (an exception aborts the script: `none`),
its `size` is compared against `1024**2`, and the summary line —
abstracted here as the `Connection` itself, since its rendering calls
external resolvers — is printed only when the comparison holds. -/
def runBatch : List FlowDict → Option FlowDict → Option (List Connection)
  | [], _ => some []
  | f :: rest, none => runBatch rest (some f)
  | f :: rest, some p =>
    if p.isEmpty then runBatch rest (some f)
    else do
      let con ← Connection.init p f
      let big ← valGtInt con.size (1024 ^ 2)
      let tail ← runBatch rest none
      pure (if big then con :: tail else tail)

/-- Key membership agrees with lookup success. -/
theorem dhas_eq_isSome (d : FlowDict) (k : String) :
    dhas d k = (dget d k).isSome := by
  induction d with
  | nil => rfl
  | cons a t ih =>
    simp only [dhas, dget, List.any_cons, List.find?_cons] at *
    cases hp : (a.1 == k)
    · simp [hp, ih]
    · simp [hp]

theorem Val.asInt_eq_some {v : Val} {i : Int} :
    v.asInt = some i ↔ v = Val.int i := by
  cases v <;> simp [Val.asInt]

/-- Inversion of the attribute-derivation part of `Connection.__init__`. -/
theorem connParts_inv {src : FlowDict} {c : Connection}
    (h : connParts src = some c) :
    ∃ ips sp dp sz li fi,
      getIPs src = some ips ∧
      dget src "L4_SRC_PORT" = some sp ∧
      dget src "L4_DST_PORT" = some dp ∧
      dget src "IN_BYTES" = some sz ∧
      dget src "LAST_SWITCHED" = some (Val.int li) ∧
      dget src "FIRST_SWITCHED" = some (Val.int fi) ∧
      c = { src := ips.src, dest := ips.dest, src_port := sp, dest_port := dp,
            size := sz,
            duration := if li - fi < 0 then (2 ^ 32 - fi) + li else li - fi } := by
  simp only [connParts, bind, Option.bind_eq_some, pure, Option.some.injEq] at h
  obtain ⟨ips, hips, sp, hsp, dp, hdp, sz, hsz, lastv, hlast, firstv, hfirst, li, hli, fi, hfi, hc⟩ := h
  rw [Val.asInt_eq_some] at hli hfi
  subst hli hfi
  exact ⟨ips, sp, dp, sz, li, fi, hips, hsp, hdp, hsz, hlast, hfirst, hc.symm⟩

/-- Direction selection, when both byte counters are integers. -/
theorem srcFlow_int {f1 f2 : FlowDict} {b1 b2 : Int}
    (h1 : dget f1 "IN_BYTES" = some (Val.int b1))
    (h2 : dget f2 "IN_BYTES" = some (Val.int b2)) :
    srcFlow f1 f2 = some (if b2 ≤ b1 then f1 else f2) := by
  simp [srcFlow, h1, h2, valGe]

theorem init_eq_bind (f1 f2 : FlowDict) :
    Connection.init f1 f2 = (srcFlow f1 f2).bind connParts := rfl

/-- The per-batch pairing loop, run on records that are nonempty
mappings (every real flow record is), pairs consecutive records. -/
theorem pairFlows_eq_chunk2 :
    ∀ flows : List FlowDict, (∀ f ∈ flows, f ≠ []) →
      pairFlows flows none = chunk2 flows
  | [], _ => rfl
  | [a], _ => rfl
  | a :: b :: rest, h => by
    have ha0 : a ≠ [] := h a (by simp)
    have ha : a.isEmpty = false := by
      cases a
      · exact absurd rfl ha0
      · rfl
    have ih := pairFlows_eq_chunk2 rest (fun f hf => h f (by simp [hf]))
    simp [pairFlows, chunk2, ha, ih]

/-- The reporting loop prints exactly the large connections: when every
consecutive pair constructs a `Connection` without an exception and
every size is comparable against the threshold, the loop succeeds and
its output is the size-filtered connection list. -/
theorem runBatch_eq_filter :
    ∀ (flows : List FlowDict) (pending : Option FlowDict),
      (∀ f ∈ flows, f ≠ ([] : FlowDict)) →
      (∀ p, pending = some p → p ≠ []) →
      ∀ cs : List Connection,
        (pairFlows flows pending).mapM (fun pr => Connection.init pr.1 pr.2) = some cs →
        (∀ c ∈ cs, (valGtInt c.size (1024 ^ 2)).isSome) →
        runBatch flows pending =
          some (cs.filter (fun c => decide (valGtInt c.size (1024 ^ 2) = some true)))
  | [], pending, _, _, cs, hcs, _ => by
    simp only [pairFlows, List.mapM_nil, pure, Option.some.injEq] at hcs
    subst hcs
    rfl
  | f :: rest, none, hne, _, cs, hcs, hsz => by
    rw [pairFlows] at hcs
    rw [runBatch]
    exact runBatch_eq_filter rest (some f)
      (fun g hg => hne g (by simp [hg]))
      (fun p hp => by
        injection hp with hp
        exact hp ▸ hne f (by simp))
      cs hcs hsz
  | f :: rest, some p, hne, hpend, cs, hcs, hsz => by
    have hp0 : p ≠ [] := hpend p rfl
    have hpe : p.isEmpty = false := by
      cases p
      · exact absurd rfl hp0
      · rfl
    rw [pairFlows, hpe] at hcs
    simp only [Bool.false_eq_true, if_false, List.mapM_cons, bind, Option.bind_eq_some,
      pure, Option.some.injEq] at hcs
    obtain ⟨c0, hc0, cs', hcs', hcseq⟩ := hcs
    subst hcseq
    obtain ⟨b, hb⟩ := Option.isSome_iff_exists.mp (hsz c0 (by simp))
    have ih := runBatch_eq_filter rest none
      (fun g hg => hne g (by simp [hg]))
      (fun q hq => by cases hq)
      cs' hcs'
      (fun c hc => hsz c (by simp [hc]))
    rw [runBatch, hpe]
    simp only [Bool.false_eq_true, if_false, bind, hc0, hb, ih, Option.bind_some]
    have h2 : ((1024 : Int) ^ 2) = 1048576 := by norm_num
    rw [h2] at hb
    cases b <;> simp [List.filter_cons, hb]

/-- Concrete flow of 1500 bytes used to instantiate the theorems. -/
def exFlowA : FlowDict :=
  [("IN_BYTES", Val.int 1500), ("IPV4_SRC_ADDR", Val.str "192.168.0.2"),
   ("IPV4_DST_ADDR", Val.str "10.0.0.7"), ("L4_SRC_PORT", Val.int 443),
   ("L4_DST_PORT", Val.int 50123), ("FIRST_SWITCHED", Val.int 1000),
   ("LAST_SWITCHED", Val.int 4000)]

/-- Concrete reverse flow of 500 bytes. -/
def exFlowB : FlowDict :=
  [("IN_BYTES", Val.int 500), ("IPV4_SRC_ADDR", Val.str "10.0.0.7"),
   ("IPV4_DST_ADDR", Val.str "192.168.0.2"), ("L4_SRC_PORT", Val.int 50123),
   ("L4_DST_PORT", Val.int 443), ("FIRST_SWITCHED", Val.int 1200),
   ("LAST_SWITCHED", Val.int 3800)]

/-- The connection the script derives from `exFlowA`/`exFlowB`. -/
def exConnA : Connection :=
  { src := Val.str "192.168.0.2", dest := Val.str "10.0.0.7",
    src_port := Val.int 443, dest_port := Val.int 50123,
    size := Val.int 1500, duration := 3000 }

/-- Flow with a wrapped 32-bit millisecond counter. -/
def wrapFlow : FlowDict :=
  [("IN_BYTES", Val.int 9000), ("IPV4_SRC_ADDR", Val.str "192.168.0.9"),
   ("IPV4_DST_ADDR", Val.str "10.0.0.9"), ("L4_SRC_PORT", Val.int 22),
   ("L4_DST_PORT", Val.int 60000), ("FIRST_SWITCHED", Val.int 4294967290),
   ("LAST_SWITCHED", Val.int 5)]

/-- Small reverse peer for `wrapFlow`. -/
def wrapPeer : FlowDict :=
  [("IN_BYTES", Val.int 100), ("IPV4_SRC_ADDR", Val.str "10.0.0.9"),
   ("IPV4_DST_ADDR", Val.str "192.168.0.9"), ("L4_SRC_PORT", Val.int 60000),
   ("L4_DST_PORT", Val.int 22), ("FIRST_SWITCHED", Val.int 4294967290),
   ("LAST_SWITCHED", Val.int 5)]

/-- The connection derived from `wrapFlow`/`wrapPeer`. -/
def wrapConn : Connection :=
  { src := Val.str "192.168.0.9", dest := Val.str "10.0.0.9",
    src_port := Val.int 22, dest_port := Val.int 60000,
    size := Val.int 9000, duration := 11 }

/-- C1: for a flow whose `LAST_SWITCHED` is smaller than its
`FIRST_SWITCHED` (the 32-bit millisecond counter wrapped), and which
is the dominant (`src`-labelled) flow, `Connection` construction
computes `duration = (2^32 - FIRST_SWITCHED) + LAST_SWITCHED`. -/
theorem claim_C1_duration_wraparound
    (f1 f2 : FlowDict) (c : Connection) (li fi : Int)
    (hsrc : srcFlow f1 f2 = some f1)
    (hinit : Connection.init f1 f2 = some c)
    (hlast : dget f1 "LAST_SWITCHED" = some (Val.int li))
    (hfirst : dget f1 "FIRST_SWITCHED" = some (Val.int fi))
    (hwrap : li < fi) :
    c.duration = (2 ^ 32 - fi) + li := by
  rw [init_eq_bind, hsrc] at hinit
  have hcp : connParts f1 = some c := hinit
  obtain ⟨ips, sp, dp, sz, li', fi', _, _, _, _, hlast', hfirst', hc⟩ := connParts_inv hcp
  have hli : li' = li := by
    have := hlast'.symm.trans hlast
    injection this with this
    injection this
  have hfi : fi' = fi := by
    have := hfirst'.symm.trans hfirst
    injection this with this
    injection this
  subst hli hfi
  rw [hc]
  exact if_pos (by omega)

/-- C1 witness: `FIRST_SWITCHED = 4294967290`, `LAST_SWITCHED = 5` on
the dominant flow gives duration `(2^32 - 4294967290) + 5 = 11`. -/
theorem claim_C1_duration_wraparound_witness : wrapConn.duration = 11 := by
  have h := claim_C1_duration_wraparound wrapFlow wrapPeer wrapConn 5 4294967290
    (by decide) (by decide) (by decide) (by decide) (by decide)
  norm_num at h
  exact h

/-- C2: `Connection` construction is symmetric in its two flow
arguments when their integer `IN_BYTES` differ: both argument orders
yield exactly the attribute derivation (`src`/`dest` addresses,
`src_port`, `dest_port`, `size`) from the flow with the larger
`IN_BYTES`. -/
theorem claim_C2_direction_selection
    (f1 f2 : FlowDict) (b1 b2 : Int)
    (h1 : dget f1 "IN_BYTES" = some (Val.int b1))
    (h2 : dget f2 "IN_BYTES" = some (Val.int b2))
    (hne : b1 ≠ b2) :
    Connection.init f1 f2 = Connection.init f2 f1 ∧
    Connection.init f1 f2 = connParts (if b1 < b2 then f2 else f1) := by
  rw [init_eq_bind, init_eq_bind, srcFlow_int h1 h2, srcFlow_int h2 h1]
  rcases lt_or_gt_of_ne hne with hlt | hgt
  · rw [if_neg (by omega), if_pos (by omega), if_pos hlt]
    exact ⟨rfl, rfl⟩
  · rw [if_pos (by omega), if_neg (by omega), if_neg (by omega)]
    exact ⟨rfl, rfl⟩

/-- C2 witness: with `IN_BYTES` 1500 and 500, both argument orders
derive the connection from the 1500-byte flow `exFlowA`; in
particular `src` and `size` come from it. -/
theorem claim_C2_direction_selection_witness :
    Connection.init exFlowA exFlowB = Connection.init exFlowB exFlowA ∧
    Connection.init exFlowA exFlowB = connParts exFlowA ∧
    (Connection.init exFlowA exFlowB).map Connection.src = some (Val.str "192.168.0.2") ∧
    (Connection.init exFlowA exFlowB).map Connection.size = some (Val.int 1500) := by
  have h := claim_C2_direction_selection exFlowA exFlowB 1500 500
    (by decide) (by decide) (by decide)
  rw [if_neg (by norm_num)] at h
  exact ⟨h.1, h.2, by decide, by decide⟩

/-- Flattening of the `if`/`elif` in `getIPs` into one disjunction. -/
theorem use_ipv4_eq (flow : FlowDict) :
    use_ipv4 flow =
      ((dhas flow "IP_PROTOCOL_VERSION"
          && decide (dget flow "IP_PROTOCOL_VERSION" = some (Val.int 4)))
        || (dhas flow "IPV4_SRC_ADDR" || dhas flow "IPV4_DST_ADDR")) := by
  rw [use_ipv4]
  cases h1 : (dhas flow "IP_PROTOCOL_VERSION"
      && decide (dget flow "IP_PROTOCOL_VERSION" = some (Val.int 4)))
  · cases h2 : (dhas flow "IPV4_SRC_ADDR" || dhas flow "IPV4_DST_ADDR") <;> simp
  · simp

/-- C3: address-family classification selects IPv4 exactly when the
`IP_PROTOCOL_VERSION` field holds the integer 4 or an IPv4 address
field is present; otherwise IPv6.  Concretely: a record with
`IPV4_SRC_ADDR` but no version field classifies (and reads) IPv4, and
a record with neither classifies IPv6 and reads the IPv6 fields. -/
theorem claim_C3_protocol_classification :
    (∀ flow : FlowDict,
        use_ipv4 flow = true ↔
          (dget flow "IP_PROTOCOL_VERSION" = some (Val.int 4)
           ∨ dhas flow "IPV4_SRC_ADDR" = true
           ∨ dhas flow "IPV4_DST_ADDR" = true))
    ∧ use_ipv4 [("IPV4_SRC_ADDR", Val.str "198.51.100.1"),
                ("IPV4_DST_ADDR", Val.str "198.51.100.2")] = true
    ∧ getIPs [("IPV4_SRC_ADDR", Val.str "198.51.100.1"),
              ("IPV4_DST_ADDR", Val.str "198.51.100.2")]
        = some ⟨Val.str "198.51.100.1", Val.str "198.51.100.2"⟩
    ∧ use_ipv4 [("IPV6_SRC_ADDR", Val.str "2001:db8::1"),
                ("IPV6_DST_ADDR", Val.str "2001:db8::2"),
                ("L4_SRC_PORT", Val.int 80)] = false
    ∧ getIPs [("IPV6_SRC_ADDR", Val.str "2001:db8::1"),
              ("IPV6_DST_ADDR", Val.str "2001:db8::2"),
              ("L4_SRC_PORT", Val.int 80)]
        = some ⟨Val.str "2001:db8::1", Val.str "2001:db8::2"⟩ := by
  refine ⟨?_, by decide, by decide, by decide, by decide⟩
  intro flow
  rw [use_ipv4_eq]
  simp only [Bool.or_eq_true, Bool.and_eq_true, decide_eq_true_eq]
  constructor
  · rintro (⟨-, h⟩ | h)
    · exact Or.inl h
    · exact Or.inr h
  · rintro (h | h)
    · refine Or.inl ⟨?_, h⟩
      rw [dhas_eq_isSome, h]
      rfl
    · exact Or.inr h

/-- C4: the per-batch loop is the two-slot automaton: a record landing
on an empty pending slot is stored; a record landing on a non-empty
slot forms a pair with it and clears the slot.  Hence records (any
nonempty mappings — no same-conversation check of any kind) are paired
two-at-a-time in arrival order. -/
theorem claim_C4_sequential_pairing (flows : List FlowDict)
    (hrec : ∀ f ∈ flows, f ≠ ([] : FlowDict)) :
    pairFlows flows none = chunk2 flows :=
  pairFlows_eq_chunk2 flows hrec

/-- C4 witness: five records pair as `(1st,2nd)`, `(3rd,4th)`, the
trailing fifth unpaired, regardless of their field contents. -/
theorem claim_C4_sequential_pairing_witness :
    pairFlows [exFlowA, exFlowB, wrapFlow, wrapPeer, exFlowA] none
      = [(exFlowA, exFlowB), (wrapFlow, wrapPeer)] := by
  have h := claim_C4_sequential_pairing [exFlowA, exFlowB, wrapFlow, wrapPeer, exFlowA]
    (by decide)
  exact h.trans (by rfl)

/-- C5: the duration of a constructed `Connection` is non-negative
whenever the dominant (`src`-selected) flow carries 32-bit
`FIRST_SWITCHED` and `LAST_SWITCHED` values, i.e. integers in
`[0, 2^32)`. -/
theorem claim_C5_duration_nonneg
    (f1 f2 src : FlowDict) (c : Connection) (fi li : Int)
    (hsrc : srcFlow f1 f2 = some src)
    (hinit : Connection.init f1 f2 = some c)
    (hfirst : dget src "FIRST_SWITCHED" = some (Val.int fi))
    (hlast : dget src "LAST_SWITCHED" = some (Val.int li))
    (hfi : 0 ≤ fi ∧ fi < 2 ^ 32) (hli : 0 ≤ li ∧ li < 2 ^ 32) :
    0 ≤ c.duration := by
  rw [init_eq_bind, hsrc] at hinit
  have hcp : connParts src = some c := hinit
  obtain ⟨ips, sp, dp, sz, li', fi', _, _, _, _, hlast', hfirst', hc⟩ := connParts_inv hcp
  have hlieq : li' = li := by
    have := hlast'.symm.trans hlast
    injection this with this
    injection this
  have hfieq : fi' = fi := by
    have := hfirst'.symm.trans hfirst
    injection this with this
    injection this
  subst hlieq hfieq
  rw [hc]
  have h32 : (2 : ℤ) ^ 32 = 4294967296 := by norm_num
  rw [h32]
  rw [h32] at hfi hli
  dsimp only
  split <;> omega

/-- C5 witness: the connection built from `exFlowA`/`exFlowB` (whose
dominant flow has in-range switch counters) has `duration ≥ 0`. -/
theorem claim_C5_duration_nonneg_witness : 0 ≤ exConnA.duration := by
  exact claim_C5_duration_nonneg exFlowA exFlowB exFlowA exConnA 1000 4000
    (by decide) (by decide) (by decide) (by decide)
    (by constructor <;> norm_num) (by constructor <;> norm_num)

/-- C6: pairing state never leaks across export batches: the loop
re-initialises the pending slot to `None` at the start of every
timestamp batch, so each batch of (nonempty) records pairs internally
and an odd trailing record is simply dropped, never paired with the
first record of the next batch. -/
theorem claim_C6_no_cross_batch_pairing (batches : List (List FlowDict))
    (hrec : ∀ b ∈ batches, ∀ f ∈ b, f ≠ ([] : FlowDict)) :
    processExports batches = batches.map (fun b => chunk2 b) := by
  induction batches with
  | nil => rfl
  | cons b rest ih =>
    rw [processExports, List.map_cons,
      pairFlows_eq_chunk2 b (hrec b (by simp)),
      ih (fun b2 hb2 => hrec b2 (by simp [hb2]))]

/-- C6 witness: an odd-length batch followed by another batch: the
trailing third record pairs with nothing, and the second batch's
records pair only with each other. -/
theorem claim_C6_no_cross_batch_pairing_witness :
    processExports [[exFlowA, exFlowB, wrapFlow], [wrapPeer, exFlowB]]
      = [[(exFlowA, exFlowB)], [(wrapPeer, exFlowB)]] := by
  have h := claim_C6_no_cross_batch_pairing
    [[exFlowA, exFlowB, wrapFlow], [wrapPeer, exFlowB]] (by decide)
  exact h.trans (by rfl)

/-- C7: a `Connection` whose dominant flow has `IN_BYTES = 2048`,
`FIRST_SWITCHED = 1000` and `LAST_SWITCHED = 4000` renders the
human-readable size `"2.00K"` (kibibytes with two decimals) and the
human-readable duration `"3 sec"` (floor of 3000 ms by 1000). -/
theorem claim_C7_human_rendering
    (f1 f2 : FlowDict) (c : Connection)
    (hsrc : srcFlow f1 f2 = some f1)
    (hinit : Connection.init f1 f2 = some c)
    (hbytes : dget f1 "IN_BYTES" = some (Val.int 2048))
    (hfirst : dget f1 "FIRST_SWITCHED" = some (Val.int 1000))
    (hlast : dget f1 "LAST_SWITCHED" = some (Val.int 4000)) :
    c.human_size = some "2.00K" ∧ c.human_duration = "3 sec" := by
  rw [init_eq_bind, hsrc] at hinit
  have hcp : connParts f1 = some c := hinit
  obtain ⟨ips, sp, dp, sz, li, fi, hips, hsp, hdp, hsz, hlast', hfirst', hc⟩ :=
    connParts_inv hcp
  have hszeq : sz = Val.int 2048 := by
    have h := hsz.symm.trans hbytes
    injection h
  have hlieq : li = 4000 := by
    have h := hlast'.symm.trans hlast
    injection h with h
    injection h
  have hfieq : fi = 1000 := by
    have h := hfirst'.symm.trans hfirst
    injection h with h
    injection h
  subst hszeq hlieq hfieq
  have hsize : c.size = Val.int 2048 := by rw [hc]
  have hdur : c.duration = 3000 := by
    rw [hc]
    show (if (4000 : ℤ) - 1000 < 0 then 2 ^ 32 - 1000 + 4000 else 4000 - 1000) = 3000
    norm_num
  constructor
  · rw [Connection.human_size, hsize]
    dsimp only
    rw [if_neg (by norm_num)]
    have hq : (((2048 : ℤ) : ℚ)) / 1024 = 2 := by norm_num
    rw [hq, if_pos (by norm_num)]
    have h200 : (2 : ℚ) * 100 = ((200 : ℤ) : ℚ) := by norm_num
    have hr : ratRound ((2 : ℚ) * 100) = 200 := by
      rw [h200, ratRound, Rat.num_intCast, Rat.den_intCast]
      decide
    rw [fmt2, hr]
    rfl
  · rw [Connection.human_duration, hdur]
    decide

/-- Concrete 2048-byte flow for the end-to-end rendering scenario. -/
def renderFlow : FlowDict :=
  [("IN_BYTES", Val.int 2048), ("IPV4_SRC_ADDR", Val.str "203.0.113.5"),
   ("IPV4_DST_ADDR", Val.str "198.51.100.7"), ("L4_SRC_PORT", Val.int 8080),
   ("L4_DST_PORT", Val.int 52000), ("FIRST_SWITCHED", Val.int 1000),
   ("LAST_SWITCHED", Val.int 4000)]

/-- Concrete 100-byte reverse peer of `renderFlow`. -/
def renderPeer : FlowDict :=
  [("IN_BYTES", Val.int 100), ("IPV4_SRC_ADDR", Val.str "198.51.100.7"),
   ("IPV4_DST_ADDR", Val.str "203.0.113.5"), ("L4_SRC_PORT", Val.int 52000),
   ("L4_DST_PORT", Val.int 8080), ("FIRST_SWITCHED", Val.int 1000),
   ("LAST_SWITCHED", Val.int 4000)]

/-- The connection the script derives from `renderFlow`/`renderPeer`. -/
def renderConn : Connection :=
  { src := Val.str "203.0.113.5", dest := Val.str "198.51.100.7",
    src_port := Val.int 8080, dest_port := Val.int 52000,
    size := Val.int 2048, duration := 3000 }

/-- C7 witness: sizes 2048 and 100 with `FIRST_SWITCHED = 1000`,
`LAST_SWITCHED = 4000` render as `"2.00K"` and `"3 sec"`. -/
theorem claim_C7_human_rendering_witness :
    renderConn.human_size = some "2.00K" ∧ renderConn.human_duration = "3 sec" :=
  claim_C7_human_rendering renderFlow renderPeer renderConn
    (by decide) (by decide) (by decide) (by decide) (by decide)

/-- Connection with unresolvable ports, for the service-fallback claim. -/
def portConn : Connection :=
  { src := Val.str "192.168.0.2", dest := Val.str "10.0.0.7",
    src_port := Val.int 12345, dest_port := Val.int 54321,
    size := Val.int 100, duration := 0 }

/-- C8 counterexample: when both service-name lookups fail, the code
returns the constant string `"unknown"`, not a value exposing either
numeric port (the claim asserts the unresolved numeric value is
returned). -/
theorem claim_C8_counterexample :
    Connection.service portConn (fun _ => none) = some "unknown" ∧
    Connection.service portConn (fun _ => none) ≠ some (toString (12345 : ℤ)) ∧
    Connection.service portConn (fun _ => none) ≠ some (toString (54321 : ℤ)) := by
  refine ⟨by decide, by decide, by decide⟩

/-- C8 (amended): when service-name lookup fails (`OSError`) for both
the integer source port and the integer destination port, `service`
never raises and falls back to the constant string `"unknown"`. -/
theorem claim_C8_service_fallback
    (c : Connection) (lookup : Int → Option String) (sp dp : Int)
    (hsp : c.src_port = Val.int sp)
    (hdp : c.dest_port = Val.int dp)
    (h1 : lookup sp = none)
    (h2 : lookup dp = none) :
    c.service lookup = some "unknown" := by
  rw [Connection.service, hsp, hdp]
  dsimp only
  rw [h1, h2]
  rfl

/-- C8 witness: both lookups failing on the concrete connection yields
the string `"unknown"` without an exception. -/
theorem claim_C8_service_fallback_witness :
    Connection.service portConn (fun _ => none) = some "unknown" :=
  claim_C8_service_fallback portConn (fun _ => none) 12345 54321 rfl rfl rfl rfl

/-- C9: within one batch the loop prints a summary line for a paired
`Connection` iff its `size` (the dominant flow's `IN_BYTES`) exceeds
`1024^2` bytes: when every pair constructs and every size is an
integer, the printed list is exactly the filter of the paired
connections by `size > 1024^2`. -/
theorem claim_C9_report_threshold
    (flows : List FlowDict) (cs : List Connection)
    (hrec : ∀ f ∈ flows, f ≠ ([] : FlowDict))
    (hconn : (pairFlows flows none).mapM (fun pr => Connection.init pr.1 pr.2) = some cs)
    (hcmp : ∀ c ∈ cs, (valGtInt c.size (1024 ^ 2)).isSome) :
    runBatch flows none =
      some (cs.filter (fun c => decide (valGtInt c.size (1024 ^ 2) = some true))) :=
  runBatch_eq_filter flows none hrec (fun _ hp => by cases hp) cs hconn hcmp

/-- Flow of 2000000 bytes (above the 1 MiB report threshold). -/
def hugeFlow : FlowDict :=
  [("IN_BYTES", Val.int 2000000), ("IPV4_SRC_ADDR", Val.str "192.0.2.10"),
   ("IPV4_DST_ADDR", Val.str "192.0.2.20"), ("L4_SRC_PORT", Val.int 80),
   ("L4_DST_PORT", Val.int 51000), ("FIRST_SWITCHED", Val.int 0),
   ("LAST_SWITCHED", Val.int 65000)]

/-- Small reverse peer for `hugeFlow`. -/
def hugePeer : FlowDict :=
  [("IN_BYTES", Val.int 900), ("IPV4_SRC_ADDR", Val.str "192.0.2.20"),
   ("IPV4_DST_ADDR", Val.str "192.0.2.10"), ("L4_SRC_PORT", Val.int 51000),
   ("L4_DST_PORT", Val.int 80), ("FIRST_SWITCHED", Val.int 0),
   ("LAST_SWITCHED", Val.int 65000)]

/-- The above-threshold connection derived from `hugeFlow`/`hugePeer`. -/
def hugeConn : Connection :=
  { src := Val.str "192.0.2.10", dest := Val.str "192.0.2.20",
    src_port := Val.int 80, dest_port := Val.int 51000,
    size := Val.int 2000000, duration := 65000 }

/-- Flow of exactly 1048576 bytes (at, not above, the threshold). -/
def thresholdFlow : FlowDict :=
  [("IN_BYTES", Val.int 1048576), ("IPV4_SRC_ADDR", Val.str "192.0.2.30"),
   ("IPV4_DST_ADDR", Val.str "192.0.2.40"), ("L4_SRC_PORT", Val.int 21),
   ("L4_DST_PORT", Val.int 50001), ("FIRST_SWITCHED", Val.int 10),
   ("LAST_SWITCHED", Val.int 20)]

/-- Small reverse peer for `thresholdFlow`. -/
def thresholdPeer : FlowDict :=
  [("IN_BYTES", Val.int 10), ("IPV4_SRC_ADDR", Val.str "192.0.2.40"),
   ("IPV4_DST_ADDR", Val.str "192.0.2.30"), ("L4_SRC_PORT", Val.int 50001),
   ("L4_DST_PORT", Val.int 21), ("FIRST_SWITCHED", Val.int 10),
   ("LAST_SWITCHED", Val.int 20)]

/-- The at-threshold connection derived from `thresholdFlow` and
`thresholdPeer`. -/
def thresholdConn : Connection :=
  { src := Val.str "192.0.2.30", dest := Val.str "192.0.2.40",
    src_port := Val.int 21, dest_port := Val.int 50001,
    size := Val.int 1048576, duration := 10 }

/-- C9 witness: a batch forming one 2000000-byte connection and one
exactly-1 MiB connection prints only the former. -/
theorem claim_C9_report_threshold_witness :
    runBatch [hugeFlow, hugePeer, thresholdFlow, thresholdPeer] none
      = some [hugeConn] := by
  have h := claim_C9_report_threshold
    [hugeFlow, hugePeer, thresholdFlow, thresholdPeer]
    [hugeConn, thresholdConn] (by decide) (by decide) (by decide)
  exact h.trans (by decide)

/-- Flow declaring `IP_PROTOCOL_VERSION = 4` but carrying only IPv6
address fields. -/
def mismatchFlow : FlowDict :=
  [("IN_BYTES", Val.int 700), ("IP_PROTOCOL_VERSION", Val.int 4),
   ("IPV6_SRC_ADDR", Val.str "2001:db8::a"), ("IPV6_DST_ADDR", Val.str "2001:db8::b"),
   ("L4_SRC_PORT", Val.int 25), ("L4_DST_PORT", Val.int 50900),
   ("FIRST_SWITCHED", Val.int 5), ("LAST_SWITCHED", Val.int 8)]

/-- Small peer for `mismatchFlow`, with the same shape. -/
def mismatchPeer : FlowDict :=
  [("IN_BYTES", Val.int 70), ("IP_PROTOCOL_VERSION", Val.int 4),
   ("IPV6_SRC_ADDR", Val.str "2001:db8::b"), ("IPV6_DST_ADDR", Val.str "2001:db8::a"),
   ("L4_SRC_PORT", Val.int 50900), ("L4_DST_PORT", Val.int 25),
   ("FIRST_SWITCHED", Val.int 5), ("LAST_SWITCHED", Val.int 8)]

/-- C10: `getIPs` requires both address fields of the selected family:
it returns a pair exactly when both keys of that family are present,
and otherwise raises a key-lookup error; concretely, a flow declaring
`IP_PROTOCOL_VERSION = 4` but carrying only IPv6 address fields makes
`Connection` construction fail. -/
theorem claim_C10_requires_both_addresses :
    (∀ flow : FlowDict,
        (getIPs flow).isSome =
          (if use_ipv4 flow then
            dhas flow "IPV4_SRC_ADDR" && dhas flow "IPV4_DST_ADDR"
          else
            dhas flow "IPV6_SRC_ADDR" && dhas flow "IPV6_DST_ADDR"))
    ∧ getIPs mismatchFlow = none
    ∧ Connection.init mismatchFlow mismatchPeer = none := by
  refine ⟨?_, by decide, by decide⟩
  intro flow
  rw [getIPs]
  by_cases hu : use_ipv4 flow = true
  · rw [if_pos hu, if_pos hu]
    cases hs : dget flow "IPV4_SRC_ADDR" <;>
      cases hd : dget flow "IPV4_DST_ADDR" <;>
        simp [dhas_eq_isSome, hs, hd]
  · rw [if_neg hu, if_neg hu]
    cases hs : dget flow "IPV6_SRC_ADDR" <;>
      cases hd : dget flow "IPV6_DST_ADDR" <;>
        simp [dhas_eq_isSome, hs, hd]
